import Mathlib

/-!
Verification development for the Doravaru backend's technical-analysis and
risk-management services.

Modelling conventions:
* Python floats are modelled as exact rationals (`ℚ`).
* A Python function that can raise `ZeroDivisionError` is modelled as a
  function into `PyResult`, with constructor `exn` for the raised exception.
* Python's `int(x)` (truncation toward zero) is modelled by `pyInt`.
* Python's `l[-n:]` slice is modelled by `lastN`.
* f-string warning texts are modelled by tags in the inductive `Warning`,
  one tag per distinct warning site, in source order.
-/

/-- Exceptions the modelled Python code can raise. -/
inductive PyError where
  | zeroDivision : PyError
deriving DecidableEq, Repr

/-- Result of a Python function that may raise an exception. -/
inductive PyResult (α : Type) where
  | ok : α → PyResult α
  | exn : PyError → PyResult α
deriving DecidableEq, Repr

/-- Python `int(x)`: truncation toward zero. -/
def pyInt (q : ℚ) : ℤ := if 0 ≤ q then ⌊q⌋ else -⌊-q⌋

/-- Python `l[-n:]`: the last `n` elements (the whole list when shorter). -/
def lastN (n : ℕ) (l : List ℚ) : List ℚ := l.drop (l.length - n)

/-- Python truthiness of an `Optional[float]`: `None` and `0.0` are falsy. -/
def truthy : Option ℚ → Bool
  | none => false
  | some x => decide (x ≠ 0)

/-! ## IndicatorCalculator: `backend/app/services/technical_analysis.py` -/

/-- Source `TechnicalAnalyzer.calculate_sma`: arithmetic mean of the last `period` closes,
`None` when the series is shorter than `period`. -/
def calculate_sma (prices : List ℚ) (period : ℕ) : Option ℚ :=
  if prices.length < period then none
  else some ((lastN period prices).sum / period)

/-- Source `TechnicalAnalyzer.calculate_ema`: seed with the SMA of the first `period`
closes, then fold the recurrence `ema = price * k + ema * (1 - k)` with
`k = 2 / (period + 1)` over the remaining closes. -/
def calculate_ema (prices : List ℚ) (period : ℕ) : Option ℚ :=
  if prices.length < period then none
  else
    let multiplier : ℚ := 2 / (period + 1)
    let sma : ℚ := (prices.take period).sum / period
    some ((prices.drop period).foldl
      (fun ema price => price * multiplier + ema * (1 - multiplier)) sma)

/-- Consecutive differences `prices[i] - prices[i-1]`, as built by the loop in
`TechnicalAnalyzer.calculate_rsi`. -/
def rsiDeltas (prices : List ℚ) : List ℚ :=
  (prices.zip prices.tail).map (fun p => p.2 - p.1)

/-- The `gains` list of `calculate_rsi`: `max(delta, 0)` for each delta. -/
def rsiGains (prices : List ℚ) : List ℚ :=
  (rsiDeltas prices).map (fun d => max d 0)

/-- The `losses` list of `calculate_rsi`: `max(-delta, 0)` for each delta. -/
def rsiLosses (prices : List ℚ) : List ℚ :=
  (rsiDeltas prices).map (fun d => max (-d) 0)

/-- The `avg_gain` of `calculate_rsi`: mean of the last `period` gains. -/
def rsiAvgGain (prices : List ℚ) (period : ℕ) : ℚ :=
  (lastN period (rsiGains prices)).sum / period

/-- The `avg_loss` of `calculate_rsi`: mean of the last `period` losses. -/
def rsiAvgLoss (prices : List ℚ) (period : ℕ) : ℚ :=
  (lastN period (rsiLosses prices)).sum / period

/-- Source `TechnicalAnalyzer.calculate_rsi`: `None` for series shorter than
`period + 1`; `100` when the average loss is exactly zero; otherwise
`100 - 100 / (1 + avg_gain / avg_loss)`. -/
def calculate_rsi (prices : List ℚ) (period : ℕ) : Option ℚ :=
  if prices.length < period + 1 then none
  else if (rsiGains prices).length < period ∨ (rsiLosses prices).length < period then none
  else if rsiAvgLoss prices period = 0 then some 100
  else some (100 - 100 / (1 + rsiAvgGain prices period / rsiAvgLoss prices period))

/-- The dictionary returned by `TechnicalAnalyzer.calculate_macd`. -/
structure MacdData where
  macd : ℚ
  signal : ℚ
  histogram : ℚ
deriving DecidableEq, Repr

/-- Source `TechnicalAnalyzer.calculate_macd`: `None` for series shorter than `slow`;
otherwise `macd_line = EMA(fast) - EMA(slow)` (final values), the signal line
is the literal `macd_line * 0.9`, and `histogram = macd_line - signal_line`. -/
def calculate_macd (prices : List ℚ) (fast slow : ℕ) : Option MacdData :=
  if prices.length < slow then none
  else
    match calculate_ema prices fast, calculate_ema prices slow with
    | some ema_fast, some ema_slow =>
      let macd_line := ema_fast - ema_slow
      let signal_line := macd_line * (9 / 10)
      some ⟨macd_line, signal_line, macd_line - signal_line⟩
    | _, _ => none

/-- The dictionary returned by `TechnicalAnalyzer.calculate_bollinger_bands`. -/
structure BBData where
  upper : ℚ
  middle : ℚ
  lower : ℚ
deriving DecidableEq, Repr

/-- The running EMA series for the spec-side MACD signal line: the EMA value at
every index from `period - 1` on, obtained by keeping each intermediate value
of the recurrence of `calculate_ema` instead of only the final one. -/
def emaSeries (prices : List ℚ) (period : ℕ) : List ℚ :=
  if prices.length < period then []
  else
    let multiplier : ℚ := 2 / (period + 1)
    let sma : ℚ := (prices.take period).sum / period
    (prices.drop period).scanl
      (fun ema price => price * multiplier + ema * (1 - multiplier)) sma

/-- Spec-side definition, following the spec's words for comparison with the
source's `calculate_macd`: the MACD line series is the pointwise difference of
the parallel EMA(12) and EMA(26) series (aligned at the first index where both
exist), and the signal line is the EMA(9) of that MACD-line series. -/
def specMacdSignalLine (prices : List ℚ) : Option ℚ :=
  let e12 := emaSeries prices 12
  let e26 := emaSeries prices 26
  let macdSeries := List.zipWith (fun a b => a - b) (e12.drop 14) e26
  calculate_ema macdSeries 9

/-! ## SignalGenerator: `TechnicalAnalyzer.generate_signals` -/

/-- One signal dictionary appended by `generate_signals`. The f-string
`reason` text is omitted; `value` is the optional `value` key, present only
for RSI signals. -/
structure Signal where
  type : String
  strength : String
  indicator : String
  value : Option ℚ
deriving DecidableEq, Repr

/-- The RSI block of `generate_signals` (the `if rsi is not None` chain). -/
def rsiSignals (rsi : Option ℚ) : List Signal :=
  match rsi with
  | none => []
  | some r =>
    if r < 30 then [⟨"BUY", "HIGH", "RSI", some r⟩]
    else if r > 70 then [⟨"SELL", "HIGH", "RSI", some r⟩]
    else if r > 55 then [⟨"BUY", "MEDIUM", "RSI", some r⟩]
    else if r < 45 then [⟨"SELL", "MEDIUM", "RSI", some r⟩]
    else []

/-- The moving-average block of `generate_signals`. Python's
`if sma_20 and sma_50` is truthiness: `None` and `0.0` both skip the block. -/
def smaSignals (current_price : ℚ) (sma_20 sma_50 : Option ℚ) : List Signal :=
  if truthy sma_20 && truthy sma_50 then
    let s20 := sma_20.getD 0
    let s50 := sma_50.getD 0
    if current_price > s20 ∧ s20 > s50 then [⟨"BUY", "MEDIUM", "SMA_TREND", none⟩]
    else if current_price < s20 ∧ s20 < s50 then [⟨"SELL", "MEDIUM", "SMA_TREND", none⟩]
    else []
  else []

/-- The MACD block of `generate_signals` (`if macd_data:` — a non-None dict of
three keys is always truthy). -/
def macdSignals : Option MacdData → List Signal
  | none => []
  | some d =>
    if d.macd > d.signal ∧ d.macd > 0 then [⟨"BUY", "MEDIUM", "MACD", none⟩]
    else if d.macd < d.signal ∧ d.macd < 0 then [⟨"SELL", "MEDIUM", "MACD", none⟩]
    else []

/-- The Bollinger block of `generate_signals`. -/
def bbSignals (current_price : ℚ) : Option BBData → List Signal
  | none => []
  | some b =>
    if current_price < b.lower then [⟨"BUY", "HIGH", "BOLLINGER", none⟩]
    else if current_price > b.upper then [⟨"SELL", "HIGH", "BOLLINGER", none⟩]
    else []

/-- The price-momentum block of `generate_signals`, applied to the computed
`price_change` percentage. -/
def momentumSignals (price_change : ℚ) : List Signal :=
  if |price_change| > 2 then
    if price_change > 0 then
      [⟨if price_change > 3 then "BUY" else "HOLD", "MEDIUM", "MOMENTUM", none⟩]
    else
      [⟨if price_change < -3 then "SELL" else "HOLD", "MEDIUM", "MOMENTUM", none⟩]
  else []

/-- Source `TechnicalAnalyzer.generate_signals`: returns the empty list for series
shorter than 2; otherwise appends the five rule blocks in source order.
Computing `price_change` divides by `closes[-2]`, raising `ZeroDivisionError`
when that close is zero (discarding the signals accumulated so far). -/
def generate_signals (closes : List ℚ) (sma_20 sma_50 rsi : Option ℚ)
    (macd_data : Option MacdData) (bb_data : Option BBData) : PyResult (List Signal) :=
  if closes.length < 2 then .ok []
  else if closes.getD (closes.length - 2) 0 = 0 then .exn .zeroDivision
  else
    .ok (rsiSignals rsi ++
      smaSignals (closes.getD (closes.length - 1) 0) sma_20 sma_50 ++
      macdSignals macd_data ++
      bbSignals (closes.getD (closes.length - 1) 0) bb_data ++
      momentumSignals
        ((closes.getD (closes.length - 1) 0 - closes.getD (closes.length - 2) 0) /
          closes.getD (closes.length - 2) 0 * 100))

/-! ## RiskValidator: `backend/app/services/risk_management.py` -/

/-- The fields of `app.models.schemas.TradeIdea` used by the risk engine. -/
structure TradeIdea where
  entry : ℚ
  stop_loss : ℚ
  targets : List ℚ
  risk_percent : ℚ
  position_size_lots_shares : ℤ
  risk_reward_t1 : ℚ
  confidence : ℤ
deriving DecidableEq, Repr

/-- Source `app.models.schemas.UserRiskProfile`. -/
structure UserRiskProfile where
  max_daily_risk_percent : ℚ
  default_position_size : ℚ
  allow_shorting : Bool
  portfolio_value : ℚ
deriving DecidableEq, Repr

/-- Tags for the warning strings appended by
`RiskManagementEngine.validate_trade_idea`, one per source site, in order. -/
inductive Warning where
  | stopTooTight
  | stopTooWide
  | lowRiskReward
  | positionTooBig
  | riskExceedsLimit
  | lowConfidence
deriving DecidableEq, Repr

/-- Check 1 of `validate_trade_idea`: the stop-distance percentage
`abs(entry - stop_loss) / entry * 100`. -/
def stopLossPercent (t : TradeIdea) : ℚ := |t.entry - t.stop_loss| / t.entry * 100

/-- Check 1 warnings of `validate_trade_idea` (informational only). -/
def check1Warnings (t : TradeIdea) : List Warning :=
  if stopLossPercent t < 1/2 then [.stopTooTight]
  else if stopLossPercent t > 5 then [.stopTooWide]
  else []

/-- Check 2 of `validate_trade_idea`: risk/reward below `min_risk_reward = 1.5`. -/
def rrBad (t : TradeIdea) : Bool :=
  if t.risk_reward_t1 < 3/2 then true else false

/-- Check 3 of `validate_trade_idea`: position value above
`max_position_size = 0.20` of the portfolio. -/
def posBad (t : TradeIdea) (p : UserRiskProfile) : Bool :=
  if (t.position_size_lots_shares : ℚ) * t.entry / p.portfolio_value > 1/5 then true
  else false

/-- Check 4 of `validate_trade_idea`: trade risk above the profile's daily
limit. -/
def riskBad (t : TradeIdea) (p : UserRiskProfile) : Bool :=
  if t.risk_percent > p.max_daily_risk_percent then true else false

/-- Source `RiskManagementEngine.validate_trade_idea`: runs the five checks in order,
accumulating warnings; checks 2, 3 and 4 also clear `is_valid`; checks 1
(stop distance) and 5 (confidence below 60) only warn. Dividing by `entry`
(check 1) or `portfolio_value` (check 3) raises `ZeroDivisionError`; the
exception discards the partially built warning list, so hoisting the
`portfolio_value = 0` test before the checks is observationally identical to
raising at check 3. -/
def validate_trade_idea (t : TradeIdea) (p : UserRiskProfile) :
    PyResult (Bool × List Warning) :=
  if t.entry = 0 then .exn .zeroDivision
  else if p.portfolio_value = 0 then .exn .zeroDivision
  else
    .ok (!rrBad t && !posBad t p && !riskBad t p,
      check1Warnings t ++
      (if rrBad t then [Warning.lowRiskReward] else []) ++
      (if posBad t p then [Warning.positionTooBig] else []) ++
      (if riskBad t p then [Warning.riskExceedsLimit] else []) ++
      (if t.confidence < 60 then [Warning.lowConfidence] else []))

/-- Source `RiskManagementEngine.calculate_optimal_position_size`: risk amount
`portfolio_value * max_daily_risk_percent / 100`, scaled by
`confidence / 100`, divided by `abs(entry - stop)` and truncated by `int()`;
capped at `int(portfolio_value * 0.20 / entry)` shares; floored to a minimum
of 1. Division by a zero `abs(entry - stop)` or a zero `entry` raises
`ZeroDivisionError`. -/
def calculate_optimal_position_size (entry_price stop_loss : ℚ)
    (p : UserRiskProfile) (confidence : ℤ) : PyResult ℤ :=
  if |entry_price - stop_loss| = 0 then .exn .zeroDivision
  else if entry_price = 0 then .exn .zeroDivision
  else
    .ok (max (min
      (pyInt (p.portfolio_value * (p.max_daily_risk_percent / 100) *
        ((confidence : ℚ) / 100) / |entry_price - stop_loss|))
      (pyInt (p.portfolio_value * (1/5) / entry_price))) 1)

/-! ## BatchOrchestrator: `batch_analysis` in `backend/app/main.py` -/

/-- Python dict assignment `d[k] = v`: replace in place when the key exists,
otherwise append (insertion order preserved). -/
def dictInsert {α : Type} (k : String) (v : α) : List (String × α) → List (String × α)
  | [] => [(k, v)]
  | (k', v') :: rest =>
    if k' = k then (k', v) :: rest else (k', v') :: dictInsert k v rest

/-- The `batch_analysis` endpoint loop: iterate over `symbols[:10]`, storing
for each symbol either a result or a per-symbol error in the `results` dict.
The per-symbol pipeline (market data, indicators, LLM call, validation) is
external I/O, abstracted as the oracle `f`; `Except.error` covers both a
caught exception and a failed trade-idea generation. -/
def batch_analysis {α : Type} (f : String → Except String α)
    (symbols : List String) : List (String × Except String α) :=
  (symbols.take 10).foldl (fun results s => dictInsert s (f s) results) []

/-! ## Concrete instances used by witnesses and counterexamples -/

/-- A 34-close series: 33 flat closes then a jump, long enough for a
well-defined EMA(9) of the MACD-line series. -/
def c1prices : List ℚ := List.replicate 33 100 ++ [200]

/-- A trade proposal with `entry == stop_loss` (both 100). -/
def c2trade : TradeIdea := ⟨100, 100, [103, 106], 2, 1, 2, 80⟩

/-- A risk profile with a 2 percent daily limit and a 100000 portfolio. -/
def c2profile : UserRiskProfile := ⟨2, 10000, true, 100000⟩

/-- A consistent trade proposal: entry 100, stop 98, first target 103, so the
risk/reward ratio is exactly 3/2. -/
def c3trade : TradeIdea := ⟨100, 98, [103, 106], 2, 10, 3/2, 80⟩

/-- Risk profile for the `c3trade` witness. -/
def c3profile : UserRiskProfile := ⟨2, 10000, true, 100000⟩

/-- Risk profile for the position-sizing counterexample. -/
def c4profile : UserRiskProfile := ⟨2, 10000, true, 100000⟩

/-- Three distinct symbols for the batch witness. -/
def c5symbols : List String := ["NIFTY", "RELIANCE", "TCS"]

/-- A per-symbol pipeline oracle that fails on exactly one symbol. -/
def c5oracle : String → Except String ℕ :=
  fun s => if s = "RELIANCE" then Except.error "insufficient data" else Except.ok 7

/-- Eleven distinct symbols, one more than the batch cap. -/
def c5sym11 : List String :=
  ["s01", "s02", "s03", "s04", "s05", "s06", "s07", "s08", "s09", "s10", "s11"]

/-- Fifteen strictly increasing closes: every delta is a gain, so the average
loss over the 14-delta window is exactly zero. -/
def c7prices : List ℚ := [1, 2, 3, 4, 5, 6, 7, 8, 9, 10, 11, 12, 13, 14, 15]

/-- The predicate of claim C10 on a single emitted signal. -/
def signalWellFormed (s : Signal) : Prop :=
  (s.strength = "MEDIUM" ∨ s.strength = "HIGH") ∧
  (s.type = "BUY" ∨ s.type = "SELL" ∨ s.type = "HOLD")

/-! ## Helper lemmas -/

theorem rsiDeltas_length (prices : List ℚ) :
    (rsiDeltas prices).length = prices.length - 1 := by
  unfold rsiDeltas
  rw [List.length_map, List.length_zip, List.length_tail]
  omega

theorem rsiGains_length (prices : List ℚ) :
    (rsiGains prices).length = prices.length - 1 := by
  unfold rsiGains
  rw [List.length_map, rsiDeltas_length]

theorem rsiLosses_length (prices : List ℚ) :
    (rsiLosses prices).length = prices.length - 1 := by
  unfold rsiLosses
  rw [List.length_map, rsiDeltas_length]

theorem rsiGains_nonneg (prices : List ℚ) : ∀ x ∈ rsiGains prices, 0 ≤ x := by
  intro x hx
  unfold rsiGains at hx
  obtain ⟨d, _, rfl⟩ := List.mem_map.mp hx
  exact le_max_right d 0

theorem rsiLosses_nonneg (prices : List ℚ) : ∀ x ∈ rsiLosses prices, 0 ≤ x := by
  intro x hx
  unfold rsiLosses at hx
  obtain ⟨d, _, rfl⟩ := List.mem_map.mp hx
  exact le_max_right (-d) 0

theorem rsiAvgGain_nonneg (prices : List ℚ) (period : ℕ) :
    0 ≤ rsiAvgGain prices period := by
  unfold rsiAvgGain
  apply div_nonneg
  · apply List.sum_nonneg
    intro x hx
    exact rsiGains_nonneg prices x (List.mem_of_mem_drop hx)
  · exact_mod_cast Nat.zero_le period

theorem rsiAvgLoss_nonneg (prices : List ℚ) (period : ℕ) :
    0 ≤ rsiAvgLoss prices period := by
  unfold rsiAvgLoss
  apply div_nonneg
  · apply List.sum_nonneg
    intro x hx
    exact rsiLosses_nonneg prices x (List.mem_of_mem_drop hx)
  · exact_mod_cast Nat.zero_le period

/-! ## Claim theorems -/

/-- C7: RSI(14) is `None` for every close series shorter than 15; for length
at least 15 the returned RSI lies in `[0, 100]`; and it is exactly 100
whenever the average loss over the 14-delta window is exactly 0. -/
theorem C7_rsi_absent_bounded (prices : List ℚ) :
    (prices.length < 15 → calculate_rsi prices 14 = none) ∧
    (15 ≤ prices.length →
      ∃ r, calculate_rsi prices 14 = some r ∧ 0 ≤ r ∧ r ≤ 100) ∧
    (15 ≤ prices.length → rsiAvgLoss prices 14 = 0 →
      calculate_rsi prices 14 = some 100) := by
  have hguard : 15 ≤ prices.length →
      ¬((rsiGains prices).length < 14 ∨ (rsiLosses prices).length < 14) := by
    intro h
    rw [rsiGains_length, rsiLosses_length]
    omega
  refine ⟨?_, ?_, ?_⟩
  · intro h
    unfold calculate_rsi
    rw [if_pos (by omega)]
  · intro h
    unfold calculate_rsi
    rw [if_neg (by omega), if_neg (hguard h)]
    by_cases h0 : rsiAvgLoss prices 14 = 0
    · rw [if_pos h0]
      exact ⟨100, rfl, by norm_num, by norm_num⟩
    · rw [if_neg h0]
      refine ⟨_, rfl, ?_, ?_⟩
      all_goals
        have hg := rsiAvgGain_nonneg prices 14
        have hl : 0 < rsiAvgLoss prices 14 :=
          lt_of_le_of_ne (rsiAvgLoss_nonneg prices 14) (Ne.symm h0)
        have hrs : 0 ≤ rsiAvgGain prices 14 / rsiAvgLoss prices 14 :=
          div_nonneg hg hl.le
        have hq1 : 0 < 100 / (1 + rsiAvgGain prices 14 / rsiAvgLoss prices 14) :=
          div_pos (by norm_num) (by linarith)
        have hq2 : 100 / (1 + rsiAvgGain prices 14 / rsiAvgLoss prices 14) ≤ 100 :=
          div_le_self (by norm_num) (by linarith)
        linarith
  · intro h h0
    unfold calculate_rsi
    rw [if_neg (by omega), if_neg (hguard h), if_pos h0]

/-- Witness for C7: a 1-close series has no RSI; a 15-close strictly
increasing series has RSI in bounds, its average loss is zero and its RSI is
exactly 100. -/
theorem C7_rsi_absent_bounded_witness :
    calculate_rsi [1] 14 = none ∧
    (∃ r, calculate_rsi c7prices 14 = some r ∧ 0 ≤ r ∧ r ≤ 100) ∧
    calculate_rsi c7prices 14 = some 100 :=
  ⟨(C7_rsi_absent_bounded [1]).1 (by norm_num),
   (C7_rsi_absent_bounded c7prices).2.1 (by norm_num [c7prices]),
   (C7_rsi_absent_bounded c7prices).2.2 (by norm_num [c7prices])
     (by norm_num [c7prices, rsiAvgLoss, rsiLosses, rsiDeltas, lastN])⟩

/-- C9: for every close series of length below 2, `generate_signals` returns
the empty signal list, whatever indicator arguments are supplied. -/
theorem C9_short_series_empty (closes : List ℚ) (sma_20 sma_50 rsi : Option ℚ)
    (macd_data : Option MacdData) (bb_data : Option BBData)
    (h : closes.length < 2) :
    generate_signals closes sma_20 sma_50 rsi macd_data bb_data = .ok [] := by
  unfold generate_signals
  rw [if_pos h]

/-- Witness for C9: a single-close series with every indicator present (an
oversold RSI included) still produces no signals. -/
theorem C9_short_series_empty_witness :
    ([(100 : ℚ)].length < 2) ∧
    generate_signals [100] (some 99) (some 98) (some 20)
      (some ⟨1, 2, 3⟩) (some ⟨110, 100, 90⟩) = .ok [] :=
  ⟨by norm_num,
   C9_short_series_empty [100] (some 99) (some 98) (some 20)
     (some ⟨1, 2, 3⟩) (some ⟨110, 100, 90⟩) (by norm_num)⟩

/-- C8: signal generation is deterministic — two calls with identical close
series and identical indicator inputs return identical signal lists (the
embedded `generate_signals` consults no clock and no randomness source). -/
theorem C8_deterministic
    (a b : List ℚ × Option ℚ × Option ℚ × Option ℚ × Option MacdData × Option BBData)
    (h : a = b) :
    generate_signals a.1 a.2.1 a.2.2.1 a.2.2.2.1 a.2.2.2.2.1 a.2.2.2.2.2 =
    generate_signals b.1 b.2.1 b.2.2.1 b.2.2.2.1 b.2.2.2.2.1 b.2.2.2.2.2 := by
  rw [h]

/-- Witness for C8 at a concrete input pair. -/
theorem C8_deterministic_witness :
    generate_signals [100, 104] none none none none none =
    generate_signals [100, 104] none none none none none :=
  C8_deterministic ([100, 104], none, none, none, none, none)
    ([100, 104], none, none, none, none, none) rfl

/-- Counterexample for C6: the claim says RSI exactly 55 yields BUY/MEDIUM and
RSI exactly 45 yields SELL/MEDIUM, but the source's strict comparisons
(`rsi > 55`, `rsi < 45`) emit no signal at either boundary: with flat closes
and no other indicator, the whole signal list is empty. -/
theorem C6_counterexample :
    generate_signals [100, 100] none none (some 55) none none = .ok [] ∧
    generate_signals [100, 100] none none (some 45) none none = .ok [] := by
  constructor <;>
    norm_num [generate_signals, rsiSignals, smaSignals, macdSignals, bbSignals,
      momentumSignals, truthy]

/-- C6 (amended): the RSI rule emits BUY/HIGH below 30, SELL/HIGH above 70,
BUY/MEDIUM on the half-open band (55, 70], SELL/MEDIUM on [30, 45), and no
signal on the closed band [45, 55] — both boundaries 45 and 55 are silent,
beside the exclusive mid-band of the claim. -/
theorem C6_rsi_bands_amended (r : ℚ) :
    (r < 30 → rsiSignals (some r) = [⟨"BUY", "HIGH", "RSI", some r⟩]) ∧
    (70 < r → rsiSignals (some r) = [⟨"SELL", "HIGH", "RSI", some r⟩]) ∧
    (55 < r → r ≤ 70 → rsiSignals (some r) = [⟨"BUY", "MEDIUM", "RSI", some r⟩]) ∧
    (30 ≤ r → r < 45 → rsiSignals (some r) = [⟨"SELL", "MEDIUM", "RSI", some r⟩]) ∧
    (45 ≤ r → r ≤ 55 → rsiSignals (some r) = []) := by
  simp only [rsiSignals]
  refine ⟨?_, ?_, ?_, ?_, ?_⟩ <;> intros <;> split_ifs <;> first | rfl | linarith

/-- Witness for C6 (amended), one sample value per band. -/
theorem C6_rsi_bands_amended_witness :
    rsiSignals (some 20) = [⟨"BUY", "HIGH", "RSI", some 20⟩] ∧
    rsiSignals (some 80) = [⟨"SELL", "HIGH", "RSI", some 80⟩] ∧
    rsiSignals (some 60) = [⟨"BUY", "MEDIUM", "RSI", some 60⟩] ∧
    rsiSignals (some 40) = [⟨"SELL", "MEDIUM", "RSI", some 40⟩] ∧
    rsiSignals (some 55) = [] :=
  ⟨(C6_rsi_bands_amended 20).1 (by norm_num),
   (C6_rsi_bands_amended 80).2.1 (by norm_num),
   (C6_rsi_bands_amended 60).2.2.1 (by norm_num) (by norm_num),
   (C6_rsi_bands_amended 40).2.2.2.1 (by norm_num) (by norm_num),
   (C6_rsi_bands_amended 55).2.2.2.2 (by norm_num) (by norm_num)⟩

theorem rsiSignals_wellFormed (rsi : Option ℚ) :
    ∀ s ∈ rsiSignals rsi, signalWellFormed s := by
  intro s hs
  cases rsi with
  | none => simp [rsiSignals] at hs
  | some r =>
    simp only [rsiSignals] at hs
    split_ifs at hs <;> simp_all [signalWellFormed]

theorem smaSignals_wellFormed (current_price : ℚ) (sma_20 sma_50 : Option ℚ) :
    ∀ s ∈ smaSignals current_price sma_20 sma_50, signalWellFormed s := by
  intro s hs
  simp only [smaSignals] at hs
  split_ifs at hs <;> simp_all [signalWellFormed]

theorem macdSignals_wellFormed (macd_data : Option MacdData) :
    ∀ s ∈ macdSignals macd_data, signalWellFormed s := by
  intro s hs
  cases macd_data with
  | none => simp [macdSignals] at hs
  | some d =>
    simp only [macdSignals] at hs
    split_ifs at hs <;> simp_all [signalWellFormed]

theorem bbSignals_wellFormed (current_price : ℚ) (bb_data : Option BBData) :
    ∀ s ∈ bbSignals current_price bb_data, signalWellFormed s := by
  intro s hs
  cases bb_data with
  | none => simp [bbSignals] at hs
  | some b =>
    simp only [bbSignals] at hs
    split_ifs at hs <;> simp_all [signalWellFormed]

theorem momentumSignals_wellFormed (price_change : ℚ) :
    ∀ s ∈ momentumSignals price_change, signalWellFormed s := by
  intro s hs
  simp only [momentumSignals] at hs
  split_ifs at hs <;> simp_all [signalWellFormed]

/-- C10: every signal `generate_signals` ever emits has strength MEDIUM or
HIGH (never LOW) and type BUY, SELL or HOLD. -/
theorem C10_signal_invariant (closes : List ℚ) (sma_20 sma_50 rsi : Option ℚ)
    (macd_data : Option MacdData) (bb_data : Option BBData) (l : List Signal)
    (h : generate_signals closes sma_20 sma_50 rsi macd_data bb_data = .ok l) :
    ∀ s ∈ l, signalWellFormed s := by
  intro s hs
  unfold generate_signals at h
  by_cases hlen : closes.length < 2
  · rw [if_pos hlen, PyResult.ok.injEq] at h
    subst h
    simp at hs
  · rw [if_neg hlen] at h
    by_cases hz : closes.getD (closes.length - 2) 0 = 0
    · rw [if_pos hz] at h
      exact PyResult.noConfusion h
    · rw [if_neg hz, PyResult.ok.injEq] at h
      subst h
      simp only [List.mem_append] at hs
      rcases hs with ((((h1 | h2) | h3) | h4) | h5)
      · exact rsiSignals_wellFormed _ s h1
      · exact smaSignals_wellFormed _ _ _ s h2
      · exact macdSignals_wellFormed _ s h3
      · exact bbSignals_wellFormed _ _ s h4
      · exact momentumSignals_wellFormed _ s h5

/-- Witness for C10: a 4 percent up-move emits exactly one momentum BUY signal
of MEDIUM strength, which satisfies the invariant. -/
theorem C10_signal_invariant_witness :
    generate_signals [100, 104] none none none none none =
      .ok [⟨"BUY", "MEDIUM", "MOMENTUM", none⟩] ∧
    signalWellFormed ⟨"BUY", "MEDIUM", "MOMENTUM", none⟩ := by
  have he : generate_signals [100, 104] none none none none none =
      .ok [⟨"BUY", "MEDIUM", "MOMENTUM", none⟩] := by
    norm_num [generate_signals, rsiSignals, smaSignals, macdSignals, bbSignals,
      momentumSignals, truthy]
  exact ⟨he, C10_signal_invariant [100, 104] none none none none none _ he
    ⟨"BUY", "MEDIUM", "MOMENTUM", none⟩ (by simp)⟩

/-- Counterexample for C1: on a concrete 34-close series the source's signal
line (`macd_line * 0.9`) differs from the EMA(9) of the parallel MACD-line
series that the claim asserts it equals. -/
theorem C1_counterexample :
    calculate_macd c1prices 12 26 = some ⟨2800/351, 2520/351, 280/351⟩ ∧
    specMacdSignalLine c1prices = some (2800/3159) ∧
    ((2520 : ℚ)/351) ≠ 2800/3159 := by
  refine ⟨?_, ?_, by norm_num⟩
  · norm_num [c1prices, List.replicate, calculate_macd, calculate_ema]
  · norm_num [c1prices, List.replicate, specMacdSignalLine, emaSeries, calculate_ema]

/-- C1 (amended): for every price series long enough for MACD(12,26), the
returned signal line is the scalar approximation `macd_line * 0.9` — not the
EMA(9) of the MACD-line series — and the histogram equals
`macd_line - signal_line`. -/
theorem C1_macd_scalar_signal_amended (prices : List ℚ) (h : 26 ≤ prices.length) :
    ∃ m : ℚ, calculate_macd prices 12 26 =
      some ⟨m, m * (9/10), m - m * (9/10)⟩ := by
  have h12 : ¬(prices.length < 12) := by omega
  have h26 : ¬(prices.length < 26) := by omega
  simp only [calculate_macd, calculate_ema, if_neg h12, if_neg h26]
  exact ⟨_, rfl⟩

/-- Witness for C1 (amended) on a flat 26-close series. -/
theorem C1_macd_scalar_signal_amended_witness :
    26 ≤ (List.replicate 26 (100 : ℚ)).length ∧
    ∃ m : ℚ, calculate_macd (List.replicate 26 (100 : ℚ)) 12 26 =
      some ⟨m, m * (9/10), m - m * (9/10)⟩ :=
  ⟨by simp, C1_macd_scalar_signal_amended (List.replicate 26 (100 : ℚ)) (by simp)⟩

/-- Counterexample for C2: with `entry == stop_loss` the validator does not
fail with any typed error — it returns a normal (isValid, warnings) result,
the zero stop distance merely producing the stop-too-tight warning. -/
theorem C2_counterexample :
    c2trade.entry = c2trade.stop_loss ∧
    validate_trade_idea c2trade c2profile = .ok (true, [.stopTooTight]) := by
  constructor
  · norm_num [c2trade]
  · norm_num [validate_trade_idea, c2trade, c2profile, check1Warnings,
      stopLossPercent, rrBad, posBad, riskBad]

/-- C2 (amended): the validator never raises a typed `InvalidInput`. For every
trade with `entry == stop` (entry and portfolio value nonzero, so no untyped
`ZeroDivisionError` fires either) it returns an ordinary `(isValid, warnings)`
pair whose warnings contain the stop-too-tight warning, since the stop
distance is 0 percent. -/
theorem C2_entry_eq_stop_amended (t : TradeIdea) (p : UserRiskProfile)
    (hes : t.entry = t.stop_loss) (he : t.entry ≠ 0) (hp : p.portfolio_value ≠ 0) :
    ∃ v w, validate_trade_idea t p = .ok (v, w) ∧ Warning.stopTooTight ∈ w := by
  have hslp : stopLossPercent t = 0 := by
    unfold stopLossPercent
    rw [hes, sub_self, abs_zero, zero_div, zero_mul]
  have hw1 : check1Warnings t = [.stopTooTight] := by
    simp only [check1Warnings, hslp]
    norm_num
  unfold validate_trade_idea
  rw [if_neg he, if_neg hp]
  refine ⟨_, _, rfl, ?_⟩
  simp [hw1]

/-- Witness for C2 (amended) at the concrete trade with entry = stop = 100. -/
theorem C2_entry_eq_stop_amended_witness :
    c2trade.entry = c2trade.stop_loss ∧
    ∃ v w, validate_trade_idea c2trade c2profile = .ok (v, w) ∧
      Warning.stopTooTight ∈ w :=
  ⟨by norm_num [c2trade],
   C2_entry_eq_stop_amended c2trade c2profile (by norm_num [c2trade])
     (by norm_num [c2trade]) (by norm_num [c2profile])⟩

/-- C3: with `entry != stop` (positive entry and portfolio value, and the
trade's stored risk/reward field equal to the claim's formula
`abs(target1 - entry) / abs(entry - stop)`), the validator returns
`isValid = false` whenever that ratio is below 1.5, and `isValid = true`
whenever the ratio is at least 1.5 (1.5 itself passing) and the position-value
cap and the risk-percent cap also pass. -/
theorem C3_risk_reward_gate (t : TradeIdea) (p : UserRiskProfile)
    (he : 0 < t.entry) (hp : 0 < p.portfolio_value)
    (hne : t.entry ≠ t.stop_loss)
    (hrr : t.risk_reward_t1 = |t.targets.headD 0 - t.entry| / |t.entry - t.stop_loss|) :
    (t.risk_reward_t1 < 3/2 →
      ∃ w, validate_trade_idea t p = .ok (false, w)) ∧
    (3/2 ≤ t.risk_reward_t1 →
      (t.position_size_lots_shares : ℚ) * t.entry / p.portfolio_value ≤ 1/5 →
      t.risk_percent ≤ p.max_daily_risk_percent →
      ∃ w, validate_trade_idea t p = .ok (true, w)) := by
  unfold validate_trade_idea
  rw [if_neg he.ne', if_neg hp.ne']
  constructor
  · intro h
    have e1 : rrBad t = true := by
      unfold rrBad
      rw [if_pos h]
    rw [e1]
    simp only [Bool.not_true, Bool.false_and]
    exact ⟨_, rfl⟩
  · intro h1 h2 h3
    have e1 : rrBad t = false := by
      unfold rrBad
      rw [if_neg (not_lt.mpr h1)]
    have e2 : posBad t p = false := by
      unfold posBad
      rw [if_neg (not_lt.mpr h2)]
    have e3 : riskBad t p = false := by
      unfold riskBad
      rw [if_neg (not_lt.mpr h3)]
    rw [e1, e2, e3]
    simp only [Bool.not_false, Bool.and_self]
    exact ⟨_, rfl⟩

/-- Witness for C3 at the boundary ratio 1.5 with all other checks passing:
the result is valid. -/
theorem C3_risk_reward_gate_witness :
    c3trade.risk_reward_t1 = 3/2 ∧
    ∃ w, validate_trade_idea c3trade c3profile = .ok (true, w) :=
  ⟨by norm_num [c3trade],
   (C3_risk_reward_gate c3trade c3profile (by norm_num [c3trade])
      (by norm_num [c3profile]) (by norm_num [c3trade])
      (by norm_num [c3trade])).2 (by norm_num [c3trade])
      (by norm_num [c3trade, c3profile]) (by norm_num [c3trade, c3profile])⟩

/-- Counterexample for C4: with confidence 50 the computed position size is
200, not the claim's `max(floor((portfolioValue * riskPercent/100) /
abs(entry - stop)), 1) = 1000` — the source scales by confidence and caps at
20 percent of the portfolio. -/
theorem C4_counterexample :
    calculate_optimal_position_size 100 98 c4profile 50 = .ok 200 ∧
    (200 : ℤ) ≠ max (pyInt (c4profile.portfolio_value *
      (c4profile.max_daily_risk_percent / 100) / |(100 : ℚ) - 98|)) 1 := by
  constructor
  · norm_num [calculate_optimal_position_size, c4profile, pyInt]
  · norm_num [c4profile, pyInt]

/-- C4 (amended): for `entry != stop`, positive entry, and non-negative
confidence, portfolio value and risk percent, the position size equals
`floor((portfolioValue * riskPercent/100 * confidence/100) / |entry - stop|)`,
capped at `floor(0.20 * portfolioValue / entry)` shares, then floored to a
minimum of 1 — i.e. the claim's formula with an additional confidence scaling
and an additional 20 percent position-value cap. -/
theorem C4_position_size_amended (entry_price stop_loss : ℚ) (p : UserRiskProfile)
    (confidence : ℤ) (hne : entry_price ≠ stop_loss) (he : 0 < entry_price)
    (hc : 0 ≤ confidence) (hpv : 0 ≤ p.portfolio_value)
    (hr : 0 ≤ p.max_daily_risk_percent) :
    calculate_optimal_position_size entry_price stop_loss p confidence =
      .ok (max (min
        ⌊p.portfolio_value * (p.max_daily_risk_percent / 100) *
          ((confidence : ℚ) / 100) / |entry_price - stop_loss|⌋
        ⌊p.portfolio_value * (1/5) / entry_price⌋) 1) := by
  have habs : |entry_price - stop_loss| ≠ 0 := abs_ne_zero.mpr (sub_ne_zero.mpr hne)
  have h1 : 0 ≤ p.portfolio_value * (p.max_daily_risk_percent / 100) *
      ((confidence : ℚ) / 100) / |entry_price - stop_loss| :=
    div_nonneg (mul_nonneg (mul_nonneg hpv (div_nonneg hr (by norm_num)))
      (div_nonneg (by exact_mod_cast hc) (by norm_num))) (abs_nonneg _)
  have h2 : 0 ≤ p.portfolio_value * (1/5) / entry_price :=
    div_nonneg (mul_nonneg hpv (by norm_num)) he.le
  unfold calculate_optimal_position_size pyInt
  rw [if_neg habs, if_neg he.ne', if_pos h1, if_pos h2]

/-- Witness for C4 (amended) at full confidence. -/
theorem C4_position_size_amended_witness :
    calculate_optimal_position_size 100 98 c4profile 100 =
      .ok (max (min
        ⌊c4profile.portfolio_value * (c4profile.max_daily_risk_percent / 100) *
          (((100 : ℤ) : ℚ) / 100) / |(100 : ℚ) - 98|⌋
        ⌊c4profile.portfolio_value * (1/5) / (100 : ℚ)⌋) 1) :=
  C4_position_size_amended 100 98 c4profile 100 (by norm_num) (by norm_num)
    (by norm_num) (by norm_num [c4profile]) (by norm_num [c4profile])

theorem dictInsert_of_notMem {α : Type} (k : String) (v : α)
    (d : List (String × α)) (h : ∀ kv ∈ d, kv.1 ≠ k) :
    dictInsert k v d = d ++ [(k, v)] := by
  induction d with
  | nil => rfl
  | cons hd tl ih =>
    obtain ⟨k', v'⟩ := hd
    have hne : k' ≠ k := h (k', v') (List.mem_cons_self _ _)
    simp only [dictInsert, if_neg hne]
    rw [ih (fun kv hkv => h kv (List.mem_cons_of_mem _ hkv))]
    simp

theorem batch_foldl_append {α : Type} (f : String → Except String α)
    (l : List String) :
    ∀ acc : List (String × Except String α), l.Nodup →
      (∀ s ∈ l, ∀ kv ∈ acc, kv.1 ≠ s) →
      l.foldl (fun a s => dictInsert s (f s) a) acc =
        acc ++ l.map (fun s => (s, f s)) := by
  induction l with
  | nil =>
    intro acc _ _
    simp
  | cons s tl ih =>
    intro acc hnd hdisj
    rw [List.foldl_cons,
      dictInsert_of_notMem s (f s) acc
        (fun kv hkv => hdisj s (List.mem_cons_self _ _) kv hkv),
      ih (acc ++ [(s, f s)]) (List.nodup_cons.mp hnd).2 ?_]
    · simp
    · intro s' hs' kv hkv
      rcases List.mem_append.mp hkv with hkv | hkv
      · exact hdisj s' (List.mem_cons_of_mem _ hs') kv hkv
      · have hkv' : kv = (s, f s) := by simpa using hkv
        subst hkv'
        intro heq
        have hss : s = s' := heq
        exact (List.nodup_cons.mp hnd).1 (by rw [hss]; exact hs')

/-- Counterexample for C5: with 11 distinct symbols (none failing), the batch
returns only 10 entries, not 11 — the loop iterates over `symbols[:10]`,
silently dropping the rest, contradicting the claim's `regardless of N`. -/
theorem C5_counterexample :
    c5sym11.length = 11 ∧
    (batch_analysis (fun _ => Except.ok (0 : ℕ)) c5sym11).length = 10 ∧
    (batch_analysis (fun _ => Except.ok (0 : ℕ)) c5sym11).length ≠
      c5sym11.length := by
  have h1 : c5sym11.length = 11 := rfl
  have h2 : (batch_analysis (fun _ => Except.ok (0 : ℕ)) c5sym11).length = 10 := rfl
  exact ⟨h1, h2, by rw [h1, h2]; decide⟩

/-- C5 (amended): for distinct requested symbols, the batch result has exactly
one entry per symbol among the first 10 requested (symbols beyond the cap are
dropped); each entry carries that symbol's own outcome — an error for each
failing symbol and a result for each succeeding one — so a per-symbol failure
never removes or cancels sibling entries. -/
theorem C5_batch_map_amended {α : Type} (f : String → Except String α)
    (symbols : List String) (h : symbols.Nodup) :
    batch_analysis f symbols = (symbols.take 10).map (fun s => (s, f s)) := by
  unfold batch_analysis
  rw [batch_foldl_append f (symbols.take 10) []
    ((List.take_sublist 10 symbols).nodup h) (by simp)]
  simp

/-- Witness for C5 (amended): three distinct symbols, the middle one failing,
produce exactly three entries with the failure isolated to its own symbol. -/
theorem C5_batch_map_amended_witness :
    c5symbols.Nodup ∧
    batch_analysis c5oracle c5symbols =
      [("NIFTY", Except.ok 7), ("RELIANCE", Except.error "insufficient data"),
       ("TCS", Except.ok 7)] := by
  have hnd : c5symbols.Nodup := by decide
  refine ⟨hnd, ?_⟩
  rw [C5_batch_map_amended c5oracle c5symbols hnd]
  rfl
